import Mathlib

/-!
Shallow embedding of `src/FullTravelBot.py` (a Telegram travel bot) and proofs
about the behaviour of its components: the Redis-backed sliding-window rate
limiter, startup configuration validation, the translation table, user
get-or-create, the Prometheus metric declarations, the `/start` command
handler, and the payment dispatcher.

Modelling conventions:
* machine time (`int(time.time())`) is an integer `ℤ`;
* the Redis sorted set under one identity's key is a `Finset ℤ`: in
  `check_rate_limit` the member added by `zadd(key, {current: current})` is
  the integer timestamp itself, which is also its score, so the set of
  members determines the whole sorted set and member uniqueness is exactly
  Redis member uniqueness;
* the process environment is an association list `List (String × String)`;
  `os.getenv` returns `none` for an unset variable, and Python truthiness of
  the result (`all(os.getenv(var) ...)`) is false for `none` and for `""`;
* Python `dict` literals with string keys are association lists, `d.get` is
  `alist_get`, and `d[k]` raising `KeyError` is `alist_get ... = none`
  propagated as the failure case;
* external calls that can raise (the Redis pipeline, the two database calls
  inside `start`) are given explicit fault-injection flags; a raised
  exception inside the `try` of `start` lands in its `except` block, which
  calls `_handle_error` (sends a fixed Russian error string) and returns
  `ConversationHandler.END`;
* vendor SDK behaviour in `PaymentManager` is an explicit outcome parameter
  (`created / notCreated / raised` for PayPal's `payment.create()`,
  `created / raised` for Stripe's `Session.create`), and the embedding also
  counts how many times each vendor SDK was invoked and which `Transaction`
  rows were created (the payment path never creates any);
* fields of the ORM rows that no analysed code path reads (timestamps,
  preference maps, the opaque vendor payloads such as PayPal `links` and
  Stripe `url`) are omitted from the record types.
-/

/-! ## Rate limiter (`RateLimiter.check_rate_limit`, lines 138-155) -/

/-- One call of `RateLimiter.check_rate_limit` for one identity.
`s` is the identity's Redis sorted set (members = integer timestamps,
score = member), `current = int(time.time())`.  The pipeline runs, in order:
`zadd(key, {current: current})` (insert the member `current`),
`zremrangebyscore(key, 0, current - 60)` (drop members `t` with
`0 ≤ t ≤ current - 60`), `zcard(key)` (count members), `expire(key, 60)`
(TTL refresh, invisible to the value).  The call returns
`zcard result ≤ self.limit`.  Output: the new sorted set and the boolean. -/
def check_rate_limit (limit : ℕ) (s : Finset ℤ) (current : ℤ) : Finset ℤ × Bool :=
  let s1 : Finset ℤ := insert current s
  let s2 : Finset ℤ := s1.filter (fun t => ¬ (0 ≤ t ∧ t ≤ current - 60))
  (s2, decide (s2.card ≤ limit))

/-- Repeated calls of `check_rate_limit` for one identity at the given call
times, threading the Redis sorted set; returns the final set and the list of
returned booleans in call order. -/
def runCalls (limit : ℕ) : Finset ℤ → List ℤ → Finset ℤ × List Bool
  | s, [] => (s, [])
  | s, t :: ts =>
    let r := check_rate_limit limit s t
    let rest := runCalls limit r.1 ts
    (rest.1, r.2 :: rest.2)

/-- Call times for 61 calls within a 10-second span (unix seconds 1000-1008,
at most 7 calls per second), matching the spec's end-to-end scenario 2. -/
def c1_times : List ℤ := (List.range 61).map (fun i => 1000 + (i : ℤ) / 7)

/-! ## Configuration (`Config`, lines 72-91; `main`, lines 388-396) -/

/-- Association-list lookup: first pair whose key equals `k`.  This is the
embedding of a Python `dict` with string keys (`d.get(k)`), and of
`os.getenv` over the process environment. -/
def alist_get {α : Type} : List (String × α) → String → Option α
  | [], _ => none
  | p :: rest, k => if p.1 = k then some p.2 else alist_get rest k

/-- Embedding of `os.getenv(k)` against an explicit environment. -/
def getenv (env : List (String × String)) (k : String) : Option String :=
  alist_get env k

/-- Python truthiness of an `os.getenv` result: `None` and `""` are falsy. -/
def truthy (o : Option String) : Bool :=
  match o with
  | none => false
  | some s => s != ""

/-- The `required_vars` list inside `Config.validate` (lines 87-90).  Note it
does not contain `PAYPAL_CLIENT_SECRET`. -/
def required_vars : List String :=
  ["BOT_TOKEN", "DATABASE_URL", "REDIS_URL", "PAYPAL_CLIENT_ID", "STRIPE_SECRET_KEY"]

/-- `Config.validate` (lines 85-91): `all(os.getenv(var) for var in required_vars)`. -/
def Config.validate (env : List (String × String)) : Bool :=
  required_vars.all (fun v => truthy (getenv env v))

/-- An environment in which every variable of `required_vars` is set to a
non-empty value but `PAYPAL_CLIENT_SECRET` is absent. -/
def c3_env : List (String × String) :=
  [("BOT_TOKEN", "t"), ("DATABASE_URL", "d"), ("REDIS_URL", "r"),
   ("PAYPAL_CLIENT_ID", "p"), ("STRIPE_SECRET_KEY", "s")]

/-! ## Translations (`Translations`, lines 157-190) -/

/-- The `'en'` table of `Translations.__init__`. -/
def en_table : List (String × String) :=
  [("welcome", "Welcome to Travel Assistant!"),
   ("select_service", "Please select a service:"),
   ("payment_error", "Payment error occurred."),
   ("feedback_thanks", "Thank you for your feedback!")]

/-- The `'ru'` table of `Translations.__init__`. -/
def ru_table : List (String × String) :=
  [("welcome", "Добро пожаловать в помощник путешественника!"),
   ("select_service", "Пожалуйста, выберите услугу:"),
   ("payment_error", "Произошла ошибка оплаты."),
   ("feedback_thanks", "Спасибо за ваш отзыв!")]

/-- The `'es'` table of `Translations.__init__`. -/
def es_table : List (String × String) :=
  [("welcome", "¡Bienvenido al Asistente de Viajes!"),
   ("select_service", "Por favor, seleccione un servicio:"),
   ("payment_error", "Ocurrió un error en el pago."),
   ("feedback_thanks", "¡Gracias por su comentario!")]

/-- The `'zh'` table of `Translations.__init__`. -/
def zh_table : List (String × String) :=
  [("welcome", "欢迎使用旅行助手！"),
   ("select_service", "请选择服务："),
   ("payment_error", "支付发生错误。"),
   ("feedback_thanks", "感谢您的反馈！")]

/-- `self.translations` (lines 160-185): outer dict from language code to table. -/
def translations : List (String × List (String × String)) :=
  [("en", en_table), ("ru", ru_table), ("es", es_table), ("zh", zh_table)]

/-- `Translations.get_text(key, language)` (lines 187-190):
`self.translations.get(language, self.translations['en']).get(key,
self.translations['en'][key])`.  Python evaluates the default argument
`self.translations['en'][key]` before the outer `.get`, so a key absent from
the `'en'` table raises `KeyError` (modelled as `none`) no matter what
`language` is. -/
def get_text (key language : String) : Option String :=
  match alist_get en_table key with
  | none => none
  | some dflt =>
      some ((alist_get ((alist_get translations language).getD en_table) key).getD dflt)

example : get_text "welcome" "ru" = some "Добро пожаловать в помощник путешественника!" := by decide
example : get_text "welcome" "fr" = some "Welcome to Travel Assistant!" := by decide
example : get_text "nope" "ru" = none := by decide

/-! ## User store (`User` ORM row, lines 50-58; `DatabaseManager`, lines 112-136) -/

/-- A row of the `users` table.  Only the columns read by the analysed code
paths are kept: `telegram_id` and `language` (`created_at`, `last_active` and
`preferences` are written with constants and never read). -/
structure UserR where
  telegram_id : ℤ
  language : String
deriving DecidableEq

/-- `DatabaseManager.get_user` (lines 122-124):
`session.query(User).filter_by(telegram_id=...).first()` — first row of the
table whose `telegram_id` matches, `none` when there is no such row. -/
def get_user : List UserR → ℤ → Option UserR
  | [], _ => none
  | u :: rest, tid => if u.telegram_id = tid then some u else get_user rest tid

/-- `DatabaseManager.create_user` (lines 126-136): add a new `User` row with
the given `telegram_id` and `language` and return it. -/
def create_user (db : List UserR) (tid : ℤ) (language : String) : List UserR × UserR :=
  let u : UserR := ⟨tid, language⟩
  (db ++ [u], u)

/-- The language argument `EnhancedTravelBot.start` passes to `create_user`
(line 319): `update.effective_user.language_code or 'en'`.  Python `or`
replaces only falsy values, i.e. `None` and the empty string; any other
string — supported by the bot or not — passes through unchanged. -/
def effectiveLanguage (language_code : Option String) : String :=
  match language_code with
  | none => "en"
  | some s => if s = "" then "en" else s

/-- `Config.SUPPORTED_LANGUAGES` (line 83). -/
def SUPPORTED_LANGUAGES : List String := ["en", "ru", "es", "zh"]

/-- The fetch-or-create step of `EnhancedTravelBot.start` (lines 315-320):
look the identity up; when absent, create it with language
`update.effective_user.language_code or 'en'`.  Returns the new table and
the profile the subsequent code uses. -/
def start_get_or_create (db : List UserR) (user_id : ℤ) (language_code : Option String) :
    List UserR × UserR :=
  match get_user db user_id with
  | some u => (db, u)
  | none => create_user db user_id (effectiveLanguage language_code)

/-! ## Metrics (`Analytics`, lines 93-110) -/

/-- Name and label names of one Prometheus metric as declared in
`Analytics.__init__`. -/
structure MetricSpec where
  name : String
  labelnames : List String
deriving DecidableEq

/-- `Analytics.command_counter` (lines 96-100): declared with metric name
`'bot_commands_total'` and label list `['command']`. -/
def Analytics.command_counter : MetricSpec :=
  ⟨"bot_commands_total", ["command"]⟩

/-- `Analytics.payment_counter` (lines 101-105): metric name
`'payments_total'`, labels `['provider', 'status']`. -/
def Analytics.payment_counter : MetricSpec :=
  ⟨"payments_total", ["provider", "status"]⟩

/-- `Analytics.response_time` (lines 106-110): histogram
`'response_time_seconds'` with label `['endpoint']`. -/
def Analytics.response_time : MetricSpec :=
  ⟨"response_time_seconds", ["endpoint"]⟩

/-! ## The `/start` handler (`EnhancedTravelBot.start`, lines 299-335;
`EnhancedTravelBot._handle_error`, lines 346-351) -/

/-- The hard-coded (Russian) string `_handle_error` sends (line 349). -/
def error_msg : String := "Произошла ошибка. Пожалуйста, попробуйте позже."

/-- The hard-coded (Russian) rate-limit notice of `start` (line 307). -/
def rate_limit_msg : String := "Слишком много запросов. Пожалуйста, попробуйте позже."

/-- Return value of a conversation-handler transition.  `END` is
`ConversationHandler.END`.  The names `SELECTING_SERVICE` and
`AWAITING_PAYMENT` are referenced in the module (lines 330, 410, 416) but
never bound anywhere in it, so evaluating them raises `NameError`; the two
constructors are kept to name the states the code refers to, and neither is
ever returned by the model. -/
inductive ConvState where
  | END
  | SELECTING_SERVICE
  | AWAITING_PAYMENT
deriving DecidableEq

/-- Fault injection for the external calls made inside the `try` of `start`:
whether `rate_limiter.check_rate_limit`, `db.get_user` and `db.create_user`
raise.  Any such exception falls through to the `except` block of `start`. -/
structure Faults where
  rateLimitRaises : Bool
  getUserRaises : Bool
  createUserRaises : Bool
deriving DecidableEq

/-- The observable outcome of one `start` call: the texts sent to the chat in
order, the value returned to the conversation framework, the user table
afterwards, and the label sets on which `command_counter.labels(...).inc()`
was called. -/
structure StartResult where
  replies : List String
  retState : ConvState
  db : List UserR
  commandIncs : List (String × String)
deriving DecidableEq

/-- Tail of the success path of `start` (lines 322-330): render the welcome
via `get_text('welcome', user.language)` and send it, then execute
`return SELECTING_SERVICE`.  That name is unbound in the module, so the
return statement raises `NameError`, which the enclosing `except` catches:
`_handle_error` sends `error_msg` and `start` returns
`ConversationHandler.END`.  The `none` branch (a `KeyError` from the
translation table, impossible for the fixed key `'welcome'`) lands in the
same `except` before anything is sent. -/
def welcomeStep (db : List UserR) (u : UserR) : StartResult :=
  match get_text "welcome" u.language with
  | some w => ⟨[w, error_msg], ConvState.END, db, [("command", "start")]⟩
  | none => ⟨[error_msg], ConvState.END, db, [("command", "start")]⟩

/-- `EnhancedTravelBot.start` (lines 299-335).  In source order: rate-limit
check (a raise here goes to the `except`; a `False` result sends the
rate-limit notice and returns `END`); `command_counter.labels(command='start').inc()`;
`get_user`; on `None`, `create_user` with
`update.effective_user.language_code or 'en'`; then the welcome step.
Every exception inside the `try` yields `_handle_error`'s fixed message and
`ConversationHandler.END`. -/
def start (f : Faults) (db : List UserR) (user_id : ℤ) (language_code : Option String)
    (rateOk : Bool) : StartResult :=
  if f.rateLimitRaises then ⟨[error_msg], ConvState.END, db, []⟩
  else if rateOk = false then ⟨[rate_limit_msg], ConvState.END, db, []⟩
  else if f.getUserRaises then ⟨[error_msg], ConvState.END, db, [("command", "start")]⟩
  else
    match get_user db user_id with
    | some u => welcomeStep db u
    | none =>
      if f.createUserRaises then ⟨[error_msg], ConvState.END, db, [("command", "start")]⟩
      else
        let p := create_user db user_id (effectiveLanguage language_code)
        welcomeStep p.1 p.2

/-! ## Payments (`PaymentProvider`, lines 39-42; `PaymentManager`, lines 192-287;
`Transaction` ORM row, lines 60-70) -/

/-- The `PaymentProvider` enum (lines 39-42). -/
inductive PaymentProvider where
  | PAYPAL
  | STRIPE
  | CRYPTO
deriving DecidableEq

/-- Behaviour of `paypalrestsdk.Payment(...).create()` inside
`_create_paypal_payment`: it returns `True` with a payment id, returns
`False`, or raises. -/
inductive PaypalOutcome where
  | created (id : String)
  | notCreated
  | raised
deriving DecidableEq

/-- Behaviour of `stripe.checkout.Session.create` inside
`_create_stripe_payment`: it returns a session with an id, or raises. -/
inductive StripeOutcome where
  | created (id : String)
  | raised
deriving DecidableEq

/-- The normalized reference `create_payment` returns on success: the vendor
id and the `provider` field (`PaymentProvider.X.value`); the opaque redirect
payload (`links` / `url`) is omitted. -/
structure PayRef where
  id : String
  provider : String
deriving DecidableEq

/-- A row of the `transactions` table (lines 60-70), restricted to the
columns the claims inspect. -/
structure TransactionR where
  user_id : ℤ
  amount : ℚ
  currency : String
  provider : String
  status : String
deriving DecidableEq

/-- Everything observable about one `create_payment` call: its return value,
how many times each vendor SDK entry point was invoked, and the
`transactions` rows it created (the code never creates any). -/
structure PaymentResult where
  payment : Option PayRef
  paypalCalls : ℕ
  stripeCalls : ℕ
  transactions : List TransactionR
deriving DecidableEq

/-- `PaymentManager._create_paypal_payment` (lines 227-255): builds the
payment object and calls `payment.create()`; on `True` returns the
normalized dict, on `False` returns `None`; a raise propagates to the caller
(`Except.error`). -/
def create_paypal_payment (po : PaypalOutcome) (amount : ℚ) (currency description : String) :
    Except Unit (Option PayRef) :=
  match po with
  | PaypalOutcome.created id => Except.ok (some ⟨id, "paypal"⟩)
  | PaypalOutcome.notCreated => Except.ok none
  | PaypalOutcome.raised => Except.error ()

/-- `PaymentManager._create_stripe_payment` (lines 257-287): calls
`stripe.checkout.Session.create`; its own `try/except` turns a raise into
`None`, otherwise it returns the normalized dict. -/
def create_stripe_payment (so : StripeOutcome) (amount : ℚ) (currency description : String) :
    Option PayRef :=
  match so with
  | StripeOutcome.created id => some ⟨id, "stripe"⟩
  | StripeOutcome.raised => none

/-- `PaymentManager.create_payment` (lines 209-225): dispatch on `provider`.
`PAYPAL` and `STRIPE` call the respective helper (one vendor SDK invocation
each); any other value raises `ValueError`, which the surrounding
`try/except` turns into `None` — with no vendor call.  A raise from the
PayPal helper is caught by the same `except` and yields `None`.  No branch
touches the `transactions` table. -/
def create_payment (po : PaypalOutcome) (so : StripeOutcome) (amount : ℚ)
    (currency description : String) (provider : PaymentProvider) : PaymentResult :=
  match provider with
  | PaymentProvider.PAYPAL =>
    match create_paypal_payment po amount currency description with
    | Except.ok r => ⟨r, 1, 0, []⟩
    | Except.error _ => ⟨none, 1, 0, []⟩
  | PaymentProvider.STRIPE => ⟨create_stripe_payment so amount currency description, 0, 1, []⟩
  | PaymentProvider.CRYPTO => ⟨none, 0, 0, []⟩

example : (start ⟨false, false, false⟩ [] 42 (some "ru") true).db = [⟨42, "ru"⟩] := by decide
example : (start ⟨false, false, false⟩ [] 42 (some "ru") true).replies =
    ["Добро пожаловать в помощник путешественника!", error_msg] := by decide

/-! ## Helper lemmas -/

/-- A successful association-list lookup returns one of the stored values. -/
theorem alist_get_mem {α : Type} (al : List (String × α)) (k : String) (w : α)
    (h : alist_get al k = some w) : w ∈ al.map Prod.snd := by
  induction al with
  | nil => simp [alist_get] at h
  | cons p rest ih =>
    rw [alist_get] at h
    by_cases hp : p.1 = k
    · simp only [hp, if_pos, Option.some.injEq] at h
      simp [← h]
    · simp only [hp, if_neg, not_false_iff] at h
      simp [ih h]

/-- A repeated `check_rate_limit` call with the same integer second leaves
the Redis sorted set unchanged: the member added the second time is already
present, and the pruning predicate is the same. -/
theorem check_rate_limit_idem (limit : ℕ) (s : Finset ℤ) (t : ℤ) :
    (check_rate_limit limit (check_rate_limit limit s t).1 t).1 =
      (check_rate_limit limit s t).1 := by
  ext x
  simp only [check_rate_limit, Finset.mem_filter, Finset.mem_insert]
  constructor
  · rintro ⟨h1, h2⟩
    rcases h1 with h | h
    · exact ⟨Or.inl h, h2⟩
    · exact ⟨h.1, h2⟩
  · rintro ⟨h1, h2⟩
    exact ⟨Or.inr ⟨h1, h2⟩, h2⟩

/-- After a sequence of calls at nonnegative, nondecreasing times ending at
`L`, the Redis sorted set is exactly the set of distinct call times lying in
the trailing window `(L - 60, L]` — one entry per distinct integer second,
regardless of how many calls shared a second. -/
theorem runCalls_state_characterization (limit : ℕ) (L : ℤ) (ts : List ℤ) :
    ∀ (s : Finset ℤ), (∀ x ∈ s, 0 ≤ x) → (∀ x ∈ ts, 0 ≤ x) → 0 ≤ L →
      List.Sorted (· ≤ ·) (ts ++ [L]) →
      (runCalls limit s (ts ++ [L])).1 =
        (s ∪ (ts ++ [L]).toFinset).filter (fun x => L - 60 < x) := by
  induction ts with
  | nil =>
    intro s hs _ hL _
    ext x
    simp only [List.nil_append, runCalls, check_rate_limit, Finset.mem_filter,
      Finset.mem_insert, Finset.mem_union, List.toFinset_cons, List.toFinset_nil,
      insert_emptyc_eq, Finset.mem_singleton]
    constructor
    · rintro ⟨hm, hq⟩
      have hx0 : 0 ≤ x := by
        rcases hm with h | h
        · omega
        · exact hs x h
      exact ⟨by tauto, by omega⟩
    · rintro ⟨hm, hlt⟩
      refine ⟨by tauto, by omega⟩
  | cons t ts ih =>
    intro s hs hts hL hsorted
    have ht0 : 0 ≤ t := hts t (by simp)
    have hsorted1 := List.sorted_cons.mp
      (show List.Sorted (· ≤ ·) (t :: (ts ++ [L])) from hsorted)
    have htL : t ≤ L := hsorted1.1 L (by simp)
    have hs1 : ∀ x ∈ (check_rate_limit limit s t).1, 0 ≤ x := by
      intro x hx
      simp only [check_rate_limit, Finset.mem_filter, Finset.mem_insert] at hx
      rcases hx.1 with h | h
      · omega
      · exact hs x h
    have hts' : ∀ x ∈ ts, 0 ≤ x := fun x hx => hts x (by simp [hx])
    have step : (runCalls limit s ((t :: ts) ++ [L])).1 =
        (runCalls limit (check_rate_limit limit s t).1 (ts ++ [L])).1 := rfl
    rw [step, ih _ hs1 hts' hL hsorted1.2]
    ext x
    simp only [check_rate_limit, Finset.mem_filter, Finset.mem_union, Finset.mem_insert,
      List.cons_append, List.toFinset_cons, List.mem_toFinset]
    constructor
    · rintro ⟨hm, hp⟩
      refine ⟨?_, hp⟩
      rcases hm with ⟨hm1, _⟩ | hm2
      · rcases hm1 with h | h
        · exact Or.inr (Or.inl h)
        · exact Or.inl h
      · exact Or.inr (Or.inr hm2)
    · rintro ⟨hm, hp⟩
      refine ⟨?_, hp⟩
      rcases hm with hx | hx | hx
      · exact Or.inl ⟨Or.inr hx, by have := hs x hx; omega⟩
      · exact Or.inl ⟨Or.inl hx, by omega⟩
      · exact Or.inr hx

/-- With the default ceiling 60, a `check_rate_limit` call whose sorted set
holds only timestamps between 0 and the current second can never reject: the
pruned window is contained in the 60 integers of `(current - 60, current]`. -/
theorem check_rate_limit_cannot_reject_at_default_limit (s : Finset ℤ) (current : ℤ)
    (hs : ∀ x ∈ s, 0 ≤ x ∧ x ≤ current) :
    (check_rate_limit 60 s current).2 = true := by
  have hsub : ((insert current s).filter
      (fun t => ¬ (0 ≤ t ∧ t ≤ current - 60))) ⊆ Finset.Ioc (current - 60) current := by
    intro x hx
    simp only [Finset.mem_filter, Finset.mem_insert] at hx
    rcases hx with ⟨hm, hq⟩
    simp only [Finset.mem_Ioc]
    rcases hm with h | h
    · omega
    · have := hs x h
      omega
  have hcard := Finset.card_le_card hsub
  rw [Int.card_Ioc] at hcard
  have h60 : (current - (current - 60)).toNat = 60 := by omega
  rw [h60] at hcard
  simp only [check_rate_limit, decide_eq_true_eq]
  exact hcard

/-- Both branches of the welcome step send the fixed error string last,
increment the command counter label set once, and return `END`. -/
theorem welcomeStep_spec (db : List UserR) (u : UserR) :
    (welcomeStep db u).retState = ConvState.END ∧
    (welcomeStep db u).replies.getLast? = some error_msg ∧
    (welcomeStep db u).commandIncs = [("command", "start")] := by
  unfold welcomeStep
  cases get_text "welcome" u.language <;> exact ⟨rfl, rfl, rfl⟩

/-! ## Claims -/

/-- C1: the claim says that 61 calls for one identity within 10 seconds with
ceiling 60 yield rejection on the 61st call.  Evaluating the embedded
`check_rate_limit` at that failing input shows every one of the 61 calls is
accepted: the sorted-set member is the integer second itself, so the window
never holds more than one entry per second (here at most 9), and the count
never exceeds the ceiling.  (By
`check_rate_limit_cannot_reject_at_default_limit`, rejection is impossible
at ceiling 60 for any call pattern with sane clocks.) -/
theorem C1_rate_limiter_accepts_61_calls_in_10s :
    (runCalls 60 ∅ c1_times).2 = List.replicate 61 true ∧ c1_times.length = 61 := by decide

/-- C2 counterexample: the claim says an unsupported locale is stored as
`"en"`.  For the unsupported locale `"fr"`, the fetch-or-create path of
`start` stores `"fr"` itself. -/
theorem C2_counterexample :
    (start_get_or_create [] 42 (some "fr")).2.language = "fr" ∧
    "fr" ∉ SUPPORTED_LANGUAGES ∧ ("fr" : String) ≠ "en" ∧
    (start_get_or_create [] 42 (some "fr")).1 = [⟨42, "fr"⟩] := by decide

/-- C2 amended: for a new identity the stored language is
`language_code or 'en'` — the first-seen locale verbatim whenever it is a
non-empty string (supported or not), and `"en"` exactly when the locale is
absent or empty.  The new row carries the identity and is appended to the
table. -/
theorem C2_amended_get_or_create (db : List UserR) (uid : ℤ) (lc : Option String)
    (h : get_user db uid = none) :
    (start_get_or_create db uid lc).2.language =
      (match lc with | none => "en" | some s => if s = "" then "en" else s) ∧
    (start_get_or_create db uid lc).2.telegram_id = uid ∧
    (start_get_or_create db uid lc).1 = db ++ [(start_get_or_create db uid lc).2] := by
  cases lc <;> simp [start_get_or_create, h, create_user, effectiveLanguage]

theorem C2_amended_witness :
    get_user [] 42 = none ∧
    ((start_get_or_create [] 42 (some "ru")).2.language =
      (match some "ru" with | none => "en" | some s => if s = "" then "en" else s) ∧
    (start_get_or_create [] 42 (some "ru")).2.telegram_id = 42 ∧
    (start_get_or_create [] 42 (some "ru")).1 =
      [] ++ [(start_get_or_create [] 42 (some "ru")).2]) :=
  ⟨rfl, C2_amended_get_or_create [] 42 (some "ru") rfl⟩

/-- C3 counterexample: the claim says validation fails whenever any of both
payment vendors' credential pairs is missing.  In an environment where the
five variables of `required_vars` are set but `PAYPAL_CLIENT_SECRET` is
absent, `Config.validate` still returns `true`. -/
theorem C3_counterexample :
    Config.validate c3_env = true ∧ getenv c3_env "PAYPAL_CLIENT_SECRET" = none := by decide

/-- C3 amended: `Config.validate` returns `true` exactly when `BOT_TOKEN`,
`DATABASE_URL`, `REDIS_URL`, `PAYPAL_CLIENT_ID` and `STRIPE_SECRET_KEY` are
set to non-empty values; `PAYPAL_CLIENT_SECRET` is not checked. -/
theorem C3_amended_validate (env : List (String × String)) :
    Config.validate env = true ↔
      (truthy (getenv env "BOT_TOKEN") = true ∧ truthy (getenv env "DATABASE_URL") = true ∧
       truthy (getenv env "REDIS_URL") = true ∧ truthy (getenv env "PAYPAL_CLIENT_ID") = true ∧
       truthy (getenv env "STRIPE_SECRET_KEY") = true) := by
  simp [Config.validate, required_vars, List.all_cons, Bool.and_eq_true]

/-- C4 counterexample: the claim says the caught exception produces an error
message localized to the user's language.  A database fault during `start`
sends the identical fixed Russian string to a user stored with language
`"en"` and to one stored with `"zh"`, and that string is not an entry of
either language's translation table; only the return to `END` holds. -/
theorem C4_counterexample :
    (start ⟨false, true, false⟩ [⟨7, "en"⟩] 7 none true).replies = [error_msg] ∧
    (start ⟨false, true, false⟩ [⟨8, "zh"⟩] 8 none true).replies = [error_msg] ∧
    (start ⟨false, true, false⟩ [⟨7, "en"⟩] 7 none true).retState = ConvState.END ∧
    error_msg ∉ en_table.map Prod.snd ∧
    error_msg ∉ zh_table.map Prod.snd := by decide

/-- C4 amended: every unhandled exception during the `start` transition is
caught and the handler returns `ConversationHandler.END`, with a fixed
generic error message — the same Russian string whatever the user's
language — sent as the last reply.  The hypothesis excludes only the
rate-limit-rejection path, the one path that raises nothing; every other
path raises (an injected external-call fault, or the `NameError` from the
unbound `SELECTING_SERVICE` on the nominally successful path). -/
theorem C4_amended_error_caught (f : Faults) (db : List UserR) (uid : ℤ)
    (lc : Option String) (rateOk : Bool)
    (h : f.rateLimitRaises = true ∨ rateOk = true) :
    (start f db uid lc rateOk).retState = ConvState.END ∧
    (start f db uid lc rateOk).replies.getLast? = some error_msg := by
  unfold start
  by_cases h1 : f.rateLimitRaises
  · simp [h1]
  · have hrate : rateOk = true := by tauto
    simp only [h1, if_false, hrate, Bool.true_eq_false, if_neg, if_true]
    by_cases h2 : f.getUserRaises
    · simp [h2]
    · simp only [h2, if_false]
      cases hu : get_user db uid with
      | some u => exact ⟨(welcomeStep_spec db u).1, (welcomeStep_spec db u).2.1⟩
      | none =>
        by_cases h3 : f.createUserRaises
        · simp [h3]
        · simp only [h3, if_false]
          exact ⟨(welcomeStep_spec _ _).1, (welcomeStep_spec _ _).2.1⟩

theorem C4_amended_witness :
    ((⟨false, true, false⟩ : Faults).rateLimitRaises = true ∨ true = true) ∧
    ((start ⟨false, true, false⟩ [] 7 none true).retState = ConvState.END ∧
     (start ⟨false, true, false⟩ [] 7 none true).replies.getLast? = some error_msg) :=
  ⟨Or.inr rfl, C4_amended_error_caught ⟨false, true, false⟩ [] 7 none true (Or.inr rfl)⟩

/-- C5 counterexample: the claim names the command counter
`commands_total`; `Analytics.__init__` declares it as `bot_commands_total`. -/
theorem C5_counterexample :
    Analytics.command_counter.name = "bot_commands_total" ∧
    Analytics.command_counter.name ≠ "commands_total" := by decide

/-- C5 amended: the metrics sink declares the command counter as
`bot_commands_total` with label `command` and the payment counter as
`payments_total` with labels `provider` and `status`; one `/start` from a
new identity that passes the rate limit performs exactly one
`labels(command='start').inc()` on the command counter. -/
theorem C5_amended_metrics (db : List UserR) (uid : ℤ) (lc : Option String)
    (h : get_user db uid = none) :
    Analytics.command_counter.name = "bot_commands_total" ∧
    Analytics.command_counter.labelnames = ["command"] ∧
    Analytics.payment_counter.name = "payments_total" ∧
    Analytics.payment_counter.labelnames = ["provider", "status"] ∧
    (start ⟨false, false, false⟩ db uid lc true).commandIncs = [("command", "start")] := by
  refine ⟨rfl, rfl, rfl, rfl, ?_⟩
  simp only [start, if_false, Bool.true_eq_false, if_neg, h]
  exact (welcomeStep_spec _ _).2.2

theorem C5_amended_witness :
    get_user [] 42 = none ∧
    (Analytics.command_counter.name = "bot_commands_total" ∧
     Analytics.command_counter.labelnames = ["command"] ∧
     Analytics.payment_counter.name = "payments_total" ∧
     Analytics.payment_counter.labelnames = ["provider", "status"] ∧
     (start ⟨false, false, false⟩ [] 42 (some "ru") true).commandIncs =
       [("command", "start")]) :=
  ⟨rfl, C5_amended_metrics [] 42 (some "ru") rfl⟩

/-- C6: for every key present in the `'en'` table and every language string,
`get_text` returns a non-empty string; when the language is unknown to the
outer table, or the chosen table misses the key, the result is exactly the
`'en'` entry; and `get_text` fails (the `KeyError` case) precisely on keys
absent from the `'en'` table. -/
theorem C6_get_text_fallback (key language v k2 : String)
    (h : alist_get en_table key = some v) :
    (get_text key language).isSome = true ∧
    (get_text key language).getD "" ≠ "" ∧
    (alist_get translations language = none → get_text key language = some v) ∧
    (alist_get ((alist_get translations language).getD en_table) key = none →
      get_text key language = some v) ∧
    (alist_get en_table k2 = none → get_text k2 language = none) := by
  have hv : v ≠ "" := by
    have hmem := alist_get_mem en_table key v h
    simp only [en_table, List.map_cons, List.map_nil, List.mem_cons,
      List.not_mem_nil, or_false] at hmem
    rcases hmem with h1 | h1 | h1 | h1 <;> subst h1 <;> decide
  have hlast : ∀ l : String, alist_get en_table k2 = none → get_text k2 l = none := by
    intro l hk2
    simp [get_text, hk2]
  cases htbl : alist_get translations language with
  | none =>
    have hgt : get_text key language = some v := by
      simp [get_text, h, htbl]
    exact ⟨by simp [hgt], by simp [hgt, hv], fun _ => hgt,
      fun _ => hgt, hlast language⟩
  | some tbl =>
    have htm : tbl = en_table ∨ tbl = ru_table ∨ tbl = es_table ∨ tbl = zh_table := by
      have := alist_get_mem translations language tbl htbl
      simpa [translations, eq_comm] using this
    cases hk : alist_get tbl key with
    | none =>
      have hgt : get_text key language = some v := by
        simp [get_text, h, htbl, hk]
      exact ⟨by simp [hgt], by simp [hgt, hv], fun hcon => Option.noConfusion hcon,
        fun _ => hgt, hlast language⟩
    | some w =>
      have hw : w ≠ "" := by
        have hwm := alist_get_mem tbl key w hk
        rcases htm with h1 | h1 | h1 | h1 <;> subst h1 <;>
          simp only [en_table, ru_table, es_table, zh_table, List.map_cons, List.map_nil,
            List.mem_cons, List.not_mem_nil, or_false] at hwm <;>
          (rcases hwm with h2 | h2 | h2 | h2 <;> subst h2 <;> decide)
      have hgt : get_text key language = some w := by
        simp [get_text, h, htbl, hk]
      refine ⟨by simp [hgt], by simp [hgt, hw],
        fun hcon => Option.noConfusion hcon, fun hcon => ?_, hlast language⟩
      have hcon2 : alist_get tbl key = none := hcon
      rw [hk] at hcon2
      cases hcon2

theorem C6_get_text_witness :
    alist_get en_table "welcome" = some "Welcome to Travel Assistant!" ∧
    ((get_text "welcome" "de").isSome = true ∧
     (get_text "welcome" "de").getD "" ≠ "" ∧
     (alist_get translations "de" = none →
       get_text "welcome" "de" = some "Welcome to Travel Assistant!") ∧
     (alist_get ((alist_get translations "de").getD en_table) "welcome" = none →
       get_text "welcome" "de" = some "Welcome to Travel Assistant!") ∧
     (alist_get en_table "missing_key" = none → get_text "missing_key" "de" = none)) :=
  ⟨by decide, C6_get_text_fallback "welcome" "de" "Welcome to Travel Assistant!" "missing_key"
    (by decide)⟩

/-- C7: `create_payment` for a provider with no dispatch branch raises
`ValueError`, which its own `except` turns into `None`, with neither vendor
SDK invoked and no `transactions` row created — for every amount, currency
and description and any vendor behaviour. -/
theorem C7_unsupported_no_vendor_call (po : PaypalOutcome) (so : StripeOutcome) (a : ℚ)
    (c d : String) (p : PaymentProvider)
    (h1 : p ≠ PaymentProvider.PAYPAL) (h2 : p ≠ PaymentProvider.STRIPE) :
    create_payment po so a c d p = ⟨none, 0, 0, []⟩ := by
  cases p with
  | PAYPAL => exact absurd rfl h1
  | STRIPE => exact absurd rfl h2
  | CRYPTO => rfl

theorem C7_witness :
    (PaymentProvider.CRYPTO ≠ PaymentProvider.PAYPAL) ∧
    (PaymentProvider.CRYPTO ≠ PaymentProvider.STRIPE) ∧
    create_payment PaypalOutcome.raised StripeOutcome.raised 10 "USD" "Hotels"
      PaymentProvider.CRYPTO = ⟨none, 0, 0, []⟩ :=
  ⟨by decide, by decide,
    C7_unsupported_no_vendor_call PaypalOutcome.raised StripeOutcome.raised 10 "USD" "Hotels"
      PaymentProvider.CRYPTO (by decide) (by decide)⟩

/-- C8: for each supported provider, a vendor-side failure (PayPal's
`payment.create()` returning `False` or raising; Stripe's `Session.create`
raising) makes `create_payment` return `None`, with the vendor invoked
exactly once (no retry) and no `transactions` row created in any state —
so in particular none in a `"succeeded"` state. -/
theorem C8_vendor_failure_no_partial_state (po : PaypalOutcome) (so : StripeOutcome)
    (a : ℚ) (c d : String)
    (hpo : po = PaypalOutcome.notCreated ∨ po = PaypalOutcome.raised)
    (hso : so = StripeOutcome.raised) :
    create_payment po so a c d PaymentProvider.PAYPAL = ⟨none, 1, 0, []⟩ ∧
    create_payment po so a c d PaymentProvider.STRIPE = ⟨none, 0, 1, []⟩ := by
  subst hso
  rcases hpo with h | h <;> subst h <;> exact ⟨rfl, rfl⟩

theorem C8_witness :
    (PaypalOutcome.raised = PaypalOutcome.notCreated ∨
      PaypalOutcome.raised = PaypalOutcome.raised) ∧
    (StripeOutcome.raised = StripeOutcome.raised) ∧
    (create_payment PaypalOutcome.raised StripeOutcome.raised 25 "EUR" "Hotels deposit"
        PaymentProvider.PAYPAL = ⟨none, 1, 0, []⟩ ∧
     create_payment PaypalOutcome.raised StripeOutcome.raised 25 "EUR" "Hotels deposit"
        PaymentProvider.STRIPE = ⟨none, 0, 1, []⟩) :=
  ⟨Or.inr rfl, rfl,
    C8_vendor_failure_no_partial_state PaypalOutcome.raised StripeOutcome.raised 25 "EUR"
      "Hotels deposit" (Or.inr rfl) rfl⟩

/-- C9: the rate window stores at most one entry per integer second.  After
any call sequence at nonnegative nondecreasing times ending at `L`, the
stored set is exactly the set of distinct call seconds in the trailing
window `(L - 60, L]`, so the counted size is the number of distinct seconds
with at least one call, not the number of calls; and a repeated call within
the same second leaves the set (hence the count) unchanged. -/
theorem C9_one_entry_per_second (limit : ℕ) (ts : List ℤ) (L : ℤ) (s : Finset ℤ) (t : ℤ)
    (hnn : ∀ x ∈ ts ++ [L], 0 ≤ x) (hsorted : List.Sorted (· ≤ ·) (ts ++ [L])) :
    (runCalls limit ∅ (ts ++ [L])).1 =
      (ts ++ [L]).toFinset.filter (fun x => L - 60 < x) ∧
    (runCalls limit ∅ (ts ++ [L])).1.card =
      ((ts ++ [L]).toFinset.filter (fun x => L - 60 < x)).card ∧
    (check_rate_limit limit (check_rate_limit limit s t).1 t).1 =
      (check_rate_limit limit s t).1 := by
  have hL : 0 ≤ L := hnn L (by simp)
  have hts : ∀ x ∈ ts, 0 ≤ x := fun x hx => hnn x (by simp [hx])
  have h1 := runCalls_state_characterization limit L ts ∅ (by simp) hts hL hsorted
  rw [Finset.empty_union] at h1
  exact ⟨h1, by rw [h1], check_rate_limit_idem limit s t⟩

theorem C9_witness :
    (∀ x ∈ ([100, 100, 150] : List ℤ) ++ [150], 0 ≤ x) ∧
    List.Sorted (· ≤ ·) (([100, 100, 150] : List ℤ) ++ [150]) ∧
    ((runCalls 60 ∅ (([100, 100, 150] : List ℤ) ++ [150])).1 =
      (([100, 100, 150] : List ℤ) ++ [150]).toFinset.filter (fun x => 150 - 60 < x) ∧
     (runCalls 60 ∅ (([100, 100, 150] : List ℤ) ++ [150])).1.card =
      ((([100, 100, 150] : List ℤ) ++ [150]).toFinset.filter (fun x => 150 - 60 < x)).card ∧
     (check_rate_limit 60 (check_rate_limit 60 {40} 100).1 100).1 =
      (check_rate_limit 60 {40} 100).1) :=
  ⟨by decide, by decide,
    C9_one_entry_per_second 60 [100, 100, 150] 150 {40} 100 (by decide) (by decide)⟩

/-- C10: `PaymentProvider.CRYPTO`, though a declared enum variant, hits the
`else` branch of `create_payment`: for every amount, currency, description
and any vendor behaviour the call returns `None` with zero invocations of
either vendor SDK. -/
theorem C10_crypto_behaves_as_unsupported (po : PaypalOutcome) (so : StripeOutcome)
    (a : ℚ) (c d : String) :
    create_payment po so a c d PaymentProvider.CRYPTO = ⟨none, 0, 0, []⟩ := rfl
